import Mathlib

/-
Verification of the two serverless HTTP handlers in this repository:
a record service over a single key-value table (src/lambda-dynamo/app.py)
and a read-only file service over an object store (src/lambda-s3/app.py).
The handlers are embedded as pure Lean functions; the managed backends
(the key-value table and the object store) are modelled as explicit state
passed through each call, with the standard semantics the handlers rely on.
-/

namespace AwsFastapi

/-- Model of a JSON attribute value as it appears in a request body dict. -/
inductive JValue where
  | null : JValue
  | str : String → JValue
  | num : Int → JValue
  | bool : Bool → JValue
deriving DecidableEq

/-- Rendering of a JValue the way a Python f-string renders the value. -/
def JValue.pyStr : JValue → String
  | JValue.null => "None"
  | JValue.str s => s
  | JValue.num n => toString n
  | JValue.bool b => if b then "True" else "False"

/-- Model of a Python dict from attribute name to value: an association
list with the keys pairwise distinct. -/
abbrev AttrMap := List (String × JValue)

/-- Lookup of an attribute by name, first match. -/
def lookupAttr : AttrMap → String → Option JValue
  | [], _ => none
  | (k, v) :: rest, key => if k = key then some v else lookupAttr rest key

/-- Overwrite of one attribute, as a Python dict assignment: the first
binding of the name is replaced in place, a missing name is appended. -/
def setAttr : AttrMap → String → JValue → AttrMap
  | [], k, v => [(k, v)]
  | kv :: rest, k, v => if kv.1 = k then (k, v) :: rest else kv :: setAttr rest k v

/-- Model of an HTTP response of the record service: a status code and a
JSON object body. FastAPI renders an HTTPException with the given status
and a body holding one detail string. -/
structure Resp where
  status : Nat
  body : AttrMap
deriving DecidableEq

/-- Model of the DynamoDB table state: the record stored under each key
value of the partition key attribute id, if any. -/
abbrev Table := JValue → Option AttrMap

/-- Models the backend call table.put_item(Item=item): the full map is
written as one record under the key equal to the id attribute of the item,
unconditionally overwriting any existing record with that key. -/
def put_item (t : Table) (item : AttrMap) : Table :=
  fun k => if k = (lookupAttr item "id").getD JValue.null then some item else t k

/-- Application of an AttributeUpdates dict in which every action is PUT:
each named attribute is overwritten on the base record in turn. -/
def applyUpdates (base : AttrMap) (attrs : AttrMap) : AttrMap :=
  attrs.foldl (fun acc kv => setAttr acc kv.1 kv.2) base

/-- Models the backend call table.update_item(Key=..., AttributeUpdates=...)
with every action PUT: the record under the key is fetched, or started as
the bare key map when absent, each listed attribute is overwritten, and the
result is stored back under the key. Records under other keys are untouched. -/
def backendUpdate (t : Table) (item_id : String) (attrs : AttrMap) : Table :=
  fun k =>
    if k = JValue.str item_id then
      some (applyUpdates ((t (JValue.str item_id)).getD [("id", JValue.str item_id)]) attrs)
    else t k

/-- Embedding of create_item from src/lambda-dynamo/app.py: reject with 400
when the id or the value key is absent from the dict, otherwise put the
full map and confirm. Returns the response and the table after the call. -/
def create_item (item : AttrMap) (t : Table) : Resp × Table :=
  if lookupAttr item "id" = none ∨ lookupAttr item "value" = none then
    (⟨400, [("detail", JValue.str "Invalid item data")]⟩, t)
  else
    (⟨200, [("message", JValue.str ("Item " ++ ((lookupAttr item "id").getD JValue.null).pyStr ++ " created."))]⟩,
      put_item t item)

/-- Embedding of update_item from src/lambda-dynamo/app.py: every pair of
the body dict becomes an AttributeUpdates entry with action PUT, the backend
update is issued, and a confirmation referencing the key is returned. No
error path is distinguished. -/
def update_item (item_id : String) (body : AttrMap) (t : Table) : Resp × Table :=
  (⟨200, [("message", JValue.str ("Item " ++ item_id ++ " updated."))]⟩,
    backendUpdate t item_id body)

/-- Embedding of get_item from src/lambda-dynamo/app.py: look the record up
by exact key match; 404 with a detail string when the backend response has
no Item, otherwise 200 with the full record map. -/
def get_item (item_id : String) (t : Table) : Resp :=
  match t (JValue.str item_id) with
  | none => ⟨404, [("detail", JValue.str "Item not found")]⟩
  | some item => ⟨200, item⟩

theorem lookupAttr_setAttr_self (m : AttrMap) (k : String) (v : JValue) :
    lookupAttr (setAttr m k v) k = some v := by
  induction m with
  | nil => simp [setAttr, lookupAttr]
  | cons kv rest ih =>
    by_cases h : kv.1 = k
    · simp [setAttr, h, lookupAttr]
    · simp [setAttr, h, lookupAttr, ih]

theorem lookupAttr_setAttr_other (m : AttrMap) (k a : String) (v : JValue)
    (h : a ≠ k) : lookupAttr (setAttr m k v) a = lookupAttr m a := by
  have hka : ¬ k = a := fun hc => h hc.symm
  induction m with
  | nil => simp [setAttr, lookupAttr, hka]
  | cons kv rest ih =>
    simp only [setAttr]
    by_cases hk : kv.1 = k
    · rw [if_pos hk]
      simp only [lookupAttr]
      rw [if_neg hka, if_neg (fun hc => hka (hk.symm.trans hc))]
    · rw [if_neg hk]
      simp only [lookupAttr]
      by_cases ha : kv.1 = a
      · rw [if_pos ha, if_pos ha]
      · rw [if_neg ha, if_neg ha, ih]

theorem lookupAttr_eq_none (m : AttrMap) (a : String)
    (h : a ∉ m.map Prod.fst) : lookupAttr m a = none := by
  induction m with
  | nil => rfl
  | cons kv rest ih =>
    simp only [List.map_cons, List.mem_cons] at h
    push_neg at h
    simp only [lookupAttr]
    rw [if_neg (fun hc => h.1 hc.symm), ih h.2]

theorem lookupAttr_applyUpdates_of_none (u : AttrMap) (base : AttrMap) (a : String)
    (h : lookupAttr u a = none) :
    lookupAttr (applyUpdates base u) a = lookupAttr base a := by
  induction u generalizing base with
  | nil => rfl
  | cons kv rest ih =>
    simp only [lookupAttr] at h
    by_cases hk : kv.1 = a
    · rw [if_pos hk] at h
      exact absurd h (by simp)
    · rw [if_neg hk] at h
      show lookupAttr (applyUpdates (setAttr base kv.1 kv.2) rest) a = lookupAttr base a
      rw [ih (setAttr base kv.1 kv.2) h]
      exact lookupAttr_setAttr_other base kv.1 a kv.2 (fun hc => hk hc.symm)

theorem lookupAttr_applyUpdates_of_some (u : AttrMap) (base : AttrMap) (a : String)
    (v : JValue) (hnd : (u.map Prod.fst).Nodup) (h : lookupAttr u a = some v) :
    lookupAttr (applyUpdates base u) a = some v := by
  induction u generalizing base with
  | nil => simp [lookupAttr] at h
  | cons kv rest ih =>
    simp only [List.map_cons, List.nodup_cons] at hnd
    simp only [lookupAttr] at h
    show lookupAttr (applyUpdates (setAttr base kv.1 kv.2) rest) a = some v
    by_cases hk : kv.1 = a
    · rw [if_pos hk] at h
      have hv : kv.2 = v := Option.some.inj h
      have hmem : a ∉ rest.map Prod.fst := hk ▸ hnd.1
      rw [lookupAttr_applyUpdates_of_none rest (setAttr base kv.1 kv.2) a
        (lookupAttr_eq_none rest a hmem), hk, hv]
      exact lookupAttr_setAttr_self base a v
    · rw [if_neg hk] at h
      exact ih (setAttr base kv.1 kv.2) hnd.2 h

/-- Model of a stored object in the object store: its raw bytes and the
content type recorded with it, which the handler never reads. -/
structure S3Object where
  objBody : List Nat
  objContentType : Option String
deriving DecidableEq

/-- Model of the faults a get_object call can raise: the NoSuchKey error
the handler catches, or any other backend fault, which it does not. -/
inductive S3Error where
  | noSuchKey : S3Error
  | otherFault : String → S3Error
deriving DecidableEq

/-- Parameters the handler passes to get_object: bucket, key, and the
expected bucket owner when one is configured. -/
structure GetParams where
  pBucket : String
  pKey : String
  pExpectedOwner : Option String
deriving DecidableEq

/-- Model of the object store client: each get_object call either returns
the object or raises one of the faults. -/
abbrev S3Backend := GetParams → Except S3Error S3Object

/-- Python truthiness of the optional bucket owner string: None and the
empty string are falsy, every other string is truthy. -/
def truthy : Option String → Bool
  | none => false
  | some s => !s.isEmpty

/-- Builds the get_object parameter dict the way get_file does: the
ExpectedBucketOwner entry is added only when the configured owner is truthy. -/
def mkGetParams (bucket_name : String) (bucket_owner : Option String)
    (file_key : String) : GetParams :=
  if truthy bucket_owner then ⟨bucket_name, file_key, bucket_owner⟩
  else ⟨bucket_name, file_key, none⟩

/-- Model of the outcome of one invocation of the file handler: a 200
response carrying raw bytes and a media type, an HTTPException response,
or an uncaught backend fault propagating out of the handler. -/
inductive FileResp where
  | ok : Nat → List Nat → String → FileResp
  | httpError : Nat → String → FileResp
  | unhandledFault : S3Error → FileResp
deriving DecidableEq

/-- Embedding of get_file from src/lambda-s3/app.py: call get_object with
the configured bucket, the routed key and optionally the expected owner;
map NoSuchKey to a 404 with detail File not found; return the body bytes
with the fixed media type otherwise. Any other fault is not caught. -/
def get_file (s3 : S3Backend) (bucket_name : String) (bucket_owner : Option String)
    (file_key : String) : FileResp :=
  match s3 (mkGetParams bucket_name bucket_owner file_key) with
  | Except.ok obj => FileResp.ok 200 obj.objBody "text/plain"
  | Except.error S3Error.noSuchKey => FileResp.httpError 404 "File not found"
  | Except.error e => FileResp.unhandledFault e

/-- Model of the bucket contents: the object stored under each key, if any. -/
abbrev BucketStore := String → Option S3Object

/-- An object store client over fixed bucket contents: get_object returns
the object stored under exactly the requested key, and raises NoSuchKey
when that key holds no object. -/
def bucketBackend (store : BucketStore) : S3Backend :=
  fun p =>
    match store p.pKey with
    | some obj => Except.ok obj
    | none => Except.error S3Error.noSuchKey

/-- Models the route files slash file_key colon path of the FastAPI app:
a request path beginning with the files segment binds the whole remainder
of the path, slashes included, to file_key. -/
def route_files (path : String) : Option String :=
  if "/files/".data.isPrefixOf path.data then
    some (String.mk (path.data.drop "/files/".data.length))
  else none

theorem mkGetParams_pKey (bucket_name : String) (bucket_owner : Option String)
    (file_key : String) : (mkGetParams bucket_name bucket_owner file_key).pKey = file_key := by
  unfold mkGetParams
  by_cases h : truthy bucket_owner = true
  · rw [if_pos h]
  · rw [if_neg h]

theorem isPrefixOf_append_self {α : Type} [DecidableEq α] (l₁ l₂ : List α) :
    l₁.isPrefixOf (l₁ ++ l₂) = true := by
  induction l₁ with
  | nil => simp [List.isPrefixOf]
  | cons x rest ih => simp [List.isPrefixOf, ih]

/-- C1: for every attribute map holding both the id and the value keys,
with the id bound to a string so that a read of that id can be issued over
HTTP, create_item returns status 200 and persists exactly the given map as
the record under that id, and get_item on that id immediately afterwards,
with no intervening operation, returns exactly that map with status 200. -/
theorem c1_create_then_read (t : Table) (item : AttrMap) (s : String) (v : JValue)
    (hid : lookupAttr item "id" = some (JValue.str s))
    (hval : lookupAttr item "value" = some v) :
    (create_item item t).1.status = 200 ∧
    (create_item item t).2 (JValue.str s) = some item ∧
    get_item s (create_item item t).2 = ⟨200, item⟩ := by
  have hcond : ¬ (lookupAttr item "id" = none ∨ lookupAttr item "value" = none) := by
    rw [hid, hval]; simp
  unfold create_item
  rw [if_neg hcond]
  have hput : put_item t item (JValue.str s) = some item := by
    unfold put_item
    rw [hid]
    simp
  refine ⟨rfl, hput, ?_⟩
  show get_item s (put_item t item) = ⟨200, item⟩
  unfold get_item
  rw [hput]

/-- Witness for C1 at a concrete item over the empty table. -/
theorem c1_create_then_read_witness :
    (create_item [("id", JValue.str "test1"), ("value", JValue.str "hello")] (fun _ => none)).1.status = 200 ∧
    (create_item [("id", JValue.str "test1"), ("value", JValue.str "hello")] (fun _ => none)).2 (JValue.str "test1") =
      some [("id", JValue.str "test1"), ("value", JValue.str "hello")] ∧
    get_item "test1" (create_item [("id", JValue.str "test1"), ("value", JValue.str "hello")] (fun _ => none)).2 =
      ⟨200, [("id", JValue.str "test1"), ("value", JValue.str "hello")]⟩ :=
  c1_create_then_read (fun _ => none) [("id", JValue.str "test1"), ("value", JValue.str "hello")]
    "test1" (JValue.str "hello") (by decide) (by decide)

/-- C2: update_item on an existing record overwrites exactly the attributes
named in the body on the record under that key, every attribute of the
record not named in the body keeps its prior value, and records under every
other key are unchanged. The body keys are pairwise distinct, as the keys
of a Python dict are. -/
theorem c2_update_existing (t : Table) (item_id : String) (base u : AttrMap)
    (hbase : t (JValue.str item_id) = some base)
    (hnd : (u.map Prod.fst).Nodup) :
    (update_item item_id u t).1.status = 200 ∧
    (update_item item_id u t).2 (JValue.str item_id) = some (applyUpdates base u) ∧
    (∀ a w, lookupAttr u a = some w → lookupAttr (applyUpdates base u) a = some w) ∧
    (∀ a, lookupAttr u a = none → lookupAttr (applyUpdates base u) a = lookupAttr base a) ∧
    (∀ k, k ≠ JValue.str item_id → (update_item item_id u t).2 k = t k) := by
  refine ⟨rfl, ?_, ?_, ?_, ?_⟩
  · show backendUpdate t item_id u (JValue.str item_id) = some (applyUpdates base u)
    unfold backendUpdate
    rw [if_pos rfl, hbase]
    rfl
  · exact fun a w hw => lookupAttr_applyUpdates_of_some u base a w hnd hw
  · exact fun a ha => lookupAttr_applyUpdates_of_none u base a ha
  · intro k hk
    show backendUpdate t item_id u k = t k
    unfold backendUpdate
    rw [if_neg hk]

/-- Witness for C2 at the example of the spec: the record with id t2 and
value initial, updated with value updated, yields id t2 and value updated. -/
theorem c2_update_existing_witness :
    (update_item "t2" [("value", JValue.str "updated")]
      (fun k => if k = JValue.str "t2" then some [("id", JValue.str "t2"), ("value", JValue.str "initial")] else none)).2
      (JValue.str "t2") = some [("id", JValue.str "t2"), ("value", JValue.str "updated")] :=
  ((c2_update_existing
      (fun k => if k = JValue.str "t2" then some [("id", JValue.str "t2"), ("value", JValue.str "initial")] else none)
      "t2" [("id", JValue.str "t2"), ("value", JValue.str "initial")] [("value", JValue.str "updated")]
      (by decide) (by decide)).2.1).trans (by decide)

/-- C3: for every attribute map missing the id key or missing the value
key, create_item returns status 400 with a detail string and performs no
write: the table after the call is the table before it. -/
theorem c3_create_invalid (t : Table) (item : AttrMap)
    (h : lookupAttr item "id" = none ∨ lookupAttr item "value" = none) :
    (create_item item t).1.status = 400 ∧
    lookupAttr (create_item item t).1.body "detail" = some (JValue.str "Invalid item data") ∧
    (create_item item t).2 = t := by
  unfold create_item
  rw [if_pos h]
  refine ⟨rfl, ?_, rfl⟩
  show lookupAttr [("detail", JValue.str "Invalid item data")] "detail" =
    some (JValue.str "Invalid item data")
  decide

/-- Witness for C3 at a map holding an id but no value, over the empty table. -/
theorem c3_create_invalid_witness :
    (create_item [("id", JValue.str "x")] (fun _ => none)).1.status = 400 ∧
    lookupAttr (create_item [("id", JValue.str "x")] (fun _ => none)).1.body "detail" =
      some (JValue.str "Invalid item data") ∧
    (create_item [("id", JValue.str "x")] (fun _ => none)).2 = (fun _ => none) :=
  c3_create_invalid (fun _ => none) [("id", JValue.str "x")] (Or.inr (by decide))

/-- C4: get_item returns status 404, with the detail string Item not found,
exactly when no record is stored under the key, and returns status 200 with
the full attribute map of the record when one is stored. -/
theorem c4_get_item_spec (t : Table) (item_id : String) :
    ((get_item item_id t).status = 404 ↔ t (JValue.str item_id) = none) ∧
    (t (JValue.str item_id) = none →
      lookupAttr (get_item item_id t).body "detail" = some (JValue.str "Item not found")) ∧
    (∀ r : AttrMap, t (JValue.str item_id) = some r → get_item item_id t = ⟨200, r⟩) := by
  cases h : t (JValue.str item_id) with
  | none =>
    refine ⟨?_, fun _ => ?_, fun r hr => ?_⟩
    · simp [get_item, h]
    · simp [get_item, h, lookupAttr]
    · exact absurd hr (by simp)
  | some r0 =>
    refine ⟨?_, fun hn => ?_, fun r hr => ?_⟩
    · simp [get_item, h]
    · exact absurd hn (by simp)
    · cases Option.some.inj hr
      simp [get_item, h]

/-- Witness for C4: a read of an absent key answers 404, a read of a
present key answers 200 with the stored record. -/
theorem c4_get_item_spec_witness :
    (get_item "missing" (fun _ => none)).status = 404 ∧
    get_item "t3" (fun k => if k = JValue.str "t3" then some [("id", JValue.str "t3"), ("value", JValue.str "retrieve_me")] else none) =
      ⟨200, [("id", JValue.str "t3"), ("value", JValue.str "retrieve_me")]⟩ :=
  ⟨(c4_get_item_spec (fun _ => none) "missing").1.mpr rfl,
   (c4_get_item_spec
      (fun k => if k = JValue.str "t3" then some [("id", JValue.str "t3"), ("value", JValue.str "retrieve_me")] else none)
      "t3").2.2 [("id", JValue.str "t3"), ("value", JValue.str "retrieve_me")] (by decide)⟩

/-- C7: update_item on a key with no existing record does not fail: it
answers status 200 with a confirmation message referencing the key and
stores a new partial record under that key, built from the bare key map by
the given attribute overwrites, so it contains every given attribute. -/
theorem c7_update_missing (t : Table) (item_id : String) (u : AttrMap)
    (habs : t (JValue.str item_id) = none)
    (hnd : (u.map Prod.fst).Nodup) :
    (update_item item_id u t).1 =
      ⟨200, [("message", JValue.str ("Item " ++ item_id ++ " updated."))]⟩ ∧
    (update_item item_id u t).2 (JValue.str item_id) =
      some (applyUpdates [("id", JValue.str item_id)] u) ∧
    (∀ a w, lookupAttr u a = some w →
      lookupAttr (applyUpdates [("id", JValue.str item_id)] u) a = some w) := by
  refine ⟨rfl, ?_, fun a w hw =>
    lookupAttr_applyUpdates_of_some u [("id", JValue.str item_id)] a w hnd hw⟩
  show backendUpdate t item_id u (JValue.str item_id) = _
  unfold backendUpdate
  rw [if_pos rfl, habs]
  rfl

/-- Witness for C7: an update of an absent key over the empty table answers
200 and creates the partial record holding the key and the given attribute. -/
theorem c7_update_missing_witness :
    (update_item "new1" [("value", JValue.str "v")] (fun _ => none)).1 =
      ⟨200, [("message", JValue.str "Item new1 updated.")]⟩ ∧
    (update_item "new1" [("value", JValue.str "v")] (fun _ => none)).2 (JValue.str "new1") =
      some [("id", JValue.str "new1"), ("value", JValue.str "v")] :=
  ⟨(c7_update_missing (fun _ => none) "new1" [("value", JValue.str "v")] rfl (by decide)).1.trans (by decide),
   ((c7_update_missing (fun _ => none) "new1" [("value", JValue.str "v")] rfl (by decide)).2.1).trans (by decide)⟩

/-- C10: the validation of create_item checks only the presence of the id
and value keys, never their bound values: whenever both keys are present,
even bound to null or to the empty string, the status is 200 and not 400,
and the call proceeds to write the full map into the table. -/
theorem c10_create_presence_only (t : Table) (item : AttrMap) (v1 v2 : JValue)
    (hid : lookupAttr item "id" = some v1)
    (hval : lookupAttr item "value" = some v2) :
    (create_item item t).1.status ≠ 400 ∧
    (create_item item t).1.status = 200 ∧
    (create_item item t).2 = put_item t item ∧
    (create_item item t).2 v1 = some item := by
  have hcond : ¬ (lookupAttr item "id" = none ∨ lookupAttr item "value" = none) := by
    rw [hid, hval]; simp
  unfold create_item
  rw [if_neg hcond]
  refine ⟨?_, rfl, rfl, ?_⟩
  · show (200 : Nat) ≠ 400
    decide
  · unfold put_item
    rw [hid]
    simp

/-- Witness for C10 at a map binding id to null and value to the empty
string, over the empty table. -/
theorem c10_create_presence_only_witness :
    (create_item [("id", JValue.null), ("value", JValue.str "")] (fun _ => none)).1.status ≠ 400 ∧
    (create_item [("id", JValue.null), ("value", JValue.str "")] (fun _ => none)).1.status = 200 ∧
    (create_item [("id", JValue.null), ("value", JValue.str "")] (fun _ => none)).2 =
      put_item (fun _ => none) [("id", JValue.null), ("value", JValue.str "")] ∧
    (create_item [("id", JValue.null), ("value", JValue.str "")] (fun _ => none)).2 JValue.null =
      some [("id", JValue.null), ("value", JValue.str "")] :=
  c10_create_presence_only (fun _ => none) [("id", JValue.null), ("value", JValue.str "")]
    JValue.null (JValue.str "") (by decide) (by decide)

/-- C5: for every object key present in the bucket, get_file answers
status 200 with a body byte-for-byte identical to the stored bytes, for
every stored byte sequence, the empty one and arbitrary binary ones
included, whatever the configured bucket name and owner. -/
theorem c5_fetch_present (store : BucketStore) (bucket_name : String)
    (bucket_owner : Option String) (key : String) (obj : S3Object)
    (h : store key = some obj) :
    get_file (bucketBackend store) bucket_name bucket_owner key =
      FileResp.ok 200 obj.objBody "text/plain" := by
  unfold get_file bucketBackend
  rw [mkGetParams_pKey, h]

/-- Witness for C5 at a non UTF8 binary object and at an empty object. -/
theorem c5_fetch_present_witness :
    get_file (bucketBackend (fun k => if k = "image.bin" then some ⟨[0, 255, 137, 10], none⟩ else none))
      "my-demo-bucket" none "image.bin" = FileResp.ok 200 [0, 255, 137, 10] "text/plain" ∧
    get_file (bucketBackend (fun k => if k = "empty.txt" then some ⟨[], none⟩ else none))
      "my-demo-bucket" none "empty.txt" = FileResp.ok 200 [] "text/plain" :=
  ⟨c5_fetch_present (fun k => if k = "image.bin" then some ⟨[0, 255, 137, 10], none⟩ else none)
      "my-demo-bucket" none "image.bin" ⟨[0, 255, 137, 10], none⟩ (by decide),
   c5_fetch_present (fun k => if k = "empty.txt" then some ⟨[], none⟩ else none)
      "my-demo-bucket" none "empty.txt" ⟨[], none⟩ (by decide)⟩

/-- C6: get_file answers 404 with detail File not found exactly when the
get_object call raises NoSuchKey; every other fault of the call is not
mapped to a status and propagates out of the handler unhandled. -/
theorem c6_fetch_error_mapping (s3 : S3Backend) (bucket_name : String)
    (bucket_owner : Option String) (key : String) :
    (get_file s3 bucket_name bucket_owner key = FileResp.httpError 404 "File not found" ↔
      s3 (mkGetParams bucket_name bucket_owner key) = Except.error S3Error.noSuchKey) ∧
    (∀ msg, s3 (mkGetParams bucket_name bucket_owner key) = Except.error (S3Error.otherFault msg) →
      get_file s3 bucket_name bucket_owner key = FileResp.unhandledFault (S3Error.otherFault msg)) := by
  cases h : s3 (mkGetParams bucket_name bucket_owner key) with
  | ok obj =>
    refine ⟨?_, fun msg hm => ?_⟩
    · simp [get_file, h]
    · exact absurd hm (by simp)
  | error e =>
    cases e with
    | noSuchKey =>
      refine ⟨?_, fun msg hm => ?_⟩
      · simp [get_file, h]
      · exact absurd hm (by simp)
    | otherFault m =>
      refine ⟨?_, fun msg hm => ?_⟩
      · simp [get_file, h]
      · have hm2 : m = msg := by simpa using hm
        subst hm2
        simp [get_file, h]

/-- Witness for C6: an absent key maps to the 404 response, a throttling
fault propagates unhandled. -/
theorem c6_fetch_error_mapping_witness :
    get_file (fun _ => Except.error S3Error.noSuchKey) "my-demo-bucket" none "absent.txt" =
      FileResp.httpError 404 "File not found" ∧
    get_file (fun _ => Except.error (S3Error.otherFault "Throttling")) "my-demo-bucket" none "k" =
      FileResp.unhandledFault (S3Error.otherFault "Throttling") :=
  ⟨(c6_fetch_error_mapping (fun _ => Except.error S3Error.noSuchKey)
      "my-demo-bucket" none "absent.txt").1.mpr rfl,
   (c6_fetch_error_mapping (fun _ => Except.error (S3Error.otherFault "Throttling"))
      "my-demo-bucket" none "k").2 "Throttling" rfl⟩

/-- C8: every successful get_file response carries the fixed media type
text slash plain: whatever bytes are stored and whatever content type was
recorded with the object in the store, the response media type is the same. -/
theorem c8_fetch_content_type (store : BucketStore) (bucket_name : String)
    (bucket_owner : Option String) (key : String) (obj : S3Object)
    (h : store key = some obj) :
    get_file (bucketBackend store) bucket_name bucket_owner key =
      FileResp.ok 200 obj.objBody "text/plain" ∧
    (∀ ct : Option String,
      get_file (bucketBackend (fun k => if k = key then some ⟨obj.objBody, ct⟩ else none))
        bucket_name bucket_owner key = FileResp.ok 200 obj.objBody "text/plain") := by
  refine ⟨?_, fun ct => ?_⟩
  · unfold get_file bucketBackend
    rw [mkGetParams_pKey, h]
  · unfold get_file bucketBackend
    rw [mkGetParams_pKey]
    simp

/-- Witness for C8 at an object stored with the content type image png:
the response still labels the bytes text slash plain. -/
theorem c8_fetch_content_type_witness :
    get_file (bucketBackend (fun k => if k = "image.png" then some ⟨[137, 80, 78, 71], some "image/png"⟩ else none))
      "my-demo-bucket" none "image.png" = FileResp.ok 200 [137, 80, 78, 71] "text/plain" :=
  (c8_fetch_content_type (fun k => if k = "image.png" then some ⟨[137, 80, 78, 71], some "image/png"⟩ else none)
    "my-demo-bucket" none "image.png" ⟨[137, 80, 78, 71], some "image/png"⟩ (by decide)).1

/-- C9: a hierarchical key holding slash separated segments is routed as
one key, the whole remainder of the request path after the files segment,
and get_file resolves it against the store at exactly that key string: the
response is the object stored under it and depends on the bucket contents
only through that exact key. -/
theorem c9_fetch_path_key (store : BucketStore) (bucket_name : String)
    (bucket_owner : Option String) (key : String) (obj : S3Object)
    (_hslash : Char.ofNat 47 ∈ key.data)
    (h : store key = some obj) :
    route_files ("/files/" ++ key) = some key ∧
    get_file (bucketBackend store) bucket_name bucket_owner key =
      FileResp.ok 200 obj.objBody "text/plain" ∧
    (∀ store2 : BucketStore, store2 key = store key →
      get_file (bucketBackend store2) bucket_name bucket_owner key =
        get_file (bucketBackend store) bucket_name bucket_owner key) := by
  refine ⟨?_, ?_, fun store2 h2 => ?_⟩
  · unfold route_files
    rw [String.data_append, if_pos (isPrefixOf_append_self "/files/".data key.data),
      List.drop_left]
  · unfold get_file bucketBackend
    rw [mkGetParams_pKey, h]
  · unfold get_file bucketBackend
    rw [mkGetParams_pKey, h2]

/-- Witness for C9 at the key folder slash subfolder slash document dot txt. -/
theorem c9_fetch_path_key_witness :
    route_files "/files/folder/subfolder/document.txt" = some "folder/subfolder/document.txt" ∧
    get_file (bucketBackend (fun k => if k = "folder/subfolder/document.txt" then some ⟨[70, 105], none⟩ else none))
      "test-bucket" none "folder/subfolder/document.txt" = FileResp.ok 200 [70, 105] "text/plain" :=
  ⟨(c9_fetch_path_key (fun k => if k = "folder/subfolder/document.txt" then some ⟨[70, 105], none⟩ else none)
      "test-bucket" none "folder/subfolder/document.txt" ⟨[70, 105], none⟩ (by decide) (by decide)).1,
   (c9_fetch_path_key (fun k => if k = "folder/subfolder/document.txt" then some ⟨[70, 105], none⟩ else none)
      "test-bucket" none "folder/subfolder/document.txt" ⟨[70, 105], none⟩ (by decide) (by decide)).2.1⟩

end AwsFastapi
